import Mathlib

/-!
Verification of the service-control tool (`service.py`).

The development shallowly embeds the parts of the program that the
properties below are about:

* the settings resolver `load_settings` (YAML values, Python dict-merge
  semantics, `str.format` placeholder substitution, derived-key injection,
  `env_prefix` rewriting);
* the systemd lifecycle helpers `systemd_uninstall` / `systemd_start`,
  modelled as functions from an external supervisor state and a response
  oracle to an error result plus the issued command trace;
* the asset-staging helper `copy_files`;
* the exit-code policy of the `run` and `do` CLI commands.

Python values loaded from YAML are modelled by the mutual inductives
`Value` / `Entries` (insertion-ordered dictionaries).  Format strings are
modelled pre-parsed into literal and placeholder segments (`Seg`), exactly
the information `str.format` consumes.  Fallible Python code is modelled
with explicit outcomes: `SettingsResult.err` is the program's own
`return None, message` convention, while `SettingsResult.exn` is an
uncaught Python exception escaping `load_settings` (a crash).
-/

/-- One segment of a Python format string: literal text, or a placeholder
`\x7bname\x7d` to be substituted by `str.format`. -/
inductive Seg where
  | lit (text : String)
  | hole (name : String)
deriving DecidableEq

/-- The raw (unformatted) text of a segment, as the Python source string
would spell it. -/
def Seg.rawText : Seg → String
  | .lit text => text
  | .hole name => "\x7b" ++ name ++ "\x7d"

/-- The raw text of a whole format string. -/
def rawOfSegs (segs : List Seg) : String :=
  String.join (segs.map Seg.rawText)

mutual
/-- A YAML-loaded Python value: string (kept as parsed format segments),
integer, boolean, `None`, or an insertion-ordered dictionary. -/
inductive Value where
  | vstr (segs : List Seg)
  | vint (n : Int)
  | vbool (b : Bool)
  | vnone
  | vdict (entries : Entries)
deriving DecidableEq

/-- The entry list of an insertion-ordered Python dictionary. -/
inductive Entries where
  | nil
  | cons (key : String) (val : Value) (rest : Entries)
deriving DecidableEq
end

/-- A plain runtime string as a `Value` (a single literal segment). -/
def strVal (s : String) : Value :=
  .vstr [Seg.lit s]

/-- Dictionary lookup, first matching key (Python `d[k]` / `k in d`). -/
def Entries.get? : Entries → String → Option Value
  | .nil, _ => none
  | .cons k v rest, key => if k = key then some v else rest.get? key

/-- Python `d[k] = v`: replace the value at an existing key in place,
otherwise append the pair at the end (insertion order). -/
def Entries.set : Entries → String → Value → Entries
  | .nil, key, val => .cons key val .nil
  | .cons k v rest, key, val =>
      if k = key then .cons k val rest else .cons k v (rest.set key val)

/-- Python `d.update(other)`: assign every entry of `other` in order. -/
def Entries.update : Entries → Entries → Entries
  | d, .nil => d
  | d, .cons k v rest => (d.set k v).update rest

/-- Whether the dictionary has no entries (Python falsiness of a dict). -/
def Entries.isEmpty : Entries → Bool
  | .nil => true
  | .cons _ _ _ => false

/-- Key-rewriting dict comprehension
`\x7bf(k): v for k, v in d.items()\x7d`. -/
def Entries.mapKeys (f : String → String) : Entries → Entries
  | .nil => .nil
  | .cons k v rest => .cons (f k) v (rest.mapKeys f)

/-- Python truthiness of a value (`if not obj`). -/
def Value.isFalsy : Value → Bool
  | .vstr segs => rawOfSegs segs = ""
  | .vint n => n = 0
  | .vbool b => !b
  | .vnone => true
  | .vdict m => m.isEmpty

/-- Python `str(v)` for the values a descriptor can hold.  The repr of a
dictionary is abstracted: it is only ever used as the text of a truthy
`env_prefix`, which no property below inspects. -/
def Value.pyStr : Value → String
  | .vstr segs => rawOfSegs segs
  | .vint n => toString n
  | .vbool b => if b then "True" else "False"
  | .vnone => "None"
  | .vdict _ => "dict"

/-- Substituting one segment, as `str.format(service=..., config=...)`
does: a placeholder naming anything but `service` or `config` raises
`KeyError`. -/
def renderSeg (service config : String) : Seg → Except String String
  | .lit text => .ok text
  | .hole name =>
      if name = "service" then .ok service
      else if name = "config" then .ok config
      else .error ("KeyError: " ++ name)

/-- `str.format` over a whole parsed format string: substitute segments
left to right, propagating the first `KeyError`. -/
def renderSegs (service config : String) : List Seg → Except String String
  | [] => .ok ""
  | s :: rest =>
      match renderSeg service config s with
      | .error e => .error e
      | .ok t =>
          match renderSegs service config rest with
          | .error e => .error e
          | .ok tr => .ok (t ++ tr)

mutual
/-- `deep_format` from `service.py`: recurse into dictionaries, apply
`str.format(service=service, config=config)` to strings, pass anything
else through unchanged.  An unknown placeholder name surfaces as the
`KeyError` that Python raises. -/
def deep_format (service config : String) : Value → Except String Value
  | .vdict entries =>
      match deepFormatEntries service config entries with
      | .error e => .error e
      | .ok l => .ok (.vdict l)
  | .vstr segs =>
      match renderSegs service config segs with
      | .error e => .error e
      | .ok t => .ok (.vstr [Seg.lit t])
  | .vint n => .ok (.vint n)
  | .vbool b => .ok (.vbool b)
  | .vnone => .ok .vnone

/-- `deep_format` mapped over the entries of a dictionary, in insertion
order, propagating the first exception. -/
def deepFormatEntries (service config : String) : Entries → Except String Entries
  | .nil => .ok .nil
  | .cons k v rest =>
      match deep_format service config v with
      | .error e => .error e
      | .ok fv =>
          match deepFormatEntries service config rest with
          | .error e => .error e
          | .ok frest => .ok (.cons k fv frest)
end

/-- A segment whose substitution raises `KeyError`: a placeholder naming
anything but `service` or `config`. -/
def Seg.isBad : Seg → Bool
  | .lit _ => false
  | .hole name =>
      if name = "service" then false else if name = "config" then false else true

mutual
/-- Whether a value contains, at any depth, a string leaf with a
placeholder that names anything but `service` or `config`. -/
def hasBadHole : Value → Bool
  | .vstr segs => segs.any Seg.isBad
  | .vdict entries => entriesBadHole entries
  | .vint _ => false
  | .vbool _ => false
  | .vnone => false

/-- `hasBadHole` over dictionary entries. -/
def entriesBadHole : Entries → Bool
  | .nil => false
  | .cons _ v rest => hasBadHole v || entriesBadHole rest
end

/-- Python `key in container` for the containers a descriptor can hold:
key membership for dicts, substring test for strings, `TypeError` for
non-iterable values. -/
def pyContains (container : Value) (key : String) : Except String Bool :=
  match container with
  | .vdict m => .ok (m.get? key).isSome
  | .vstr segs =>
      .ok (if key = "" then true else (rawOfSegs segs).splitOn key |>.length > 1)
  | .vint _ => .error "TypeError: argument of type int is not iterable"
  | .vbool _ => .error "TypeError: argument of type bool is not iterable"
  | .vnone => .error "TypeError: argument of type NoneType is not iterable"

/-- Python `container[key]` with a string key: dict lookup (raising
`KeyError` when absent), `TypeError` otherwise. -/
def pySubscript (container : Value) (key : String) : Except String Value :=
  match container with
  | .vdict m =>
      match m.get? key with
      | some v => .ok v
      | none => .error ("KeyError: " ++ key)
  | _ => .error "TypeError: object is not subscriptable"

/-- Python `container.get(key, default)`; only ever reached on a dict in
`load_settings`. -/
def pyGet (container : Value) (key : String) (dflt : Value) : Value :=
  match container with
  | .vdict m => (m.get? key).getD dflt
  | _ => dflt

/-- Outcome of `load_settings`: a settings dictionary (`settings, None`),
the function's own error tuple (`None, message`), or an uncaught Python
exception escaping it (a crash, not a returned result). -/
inductive SettingsResult where
  | ok (settings : Entries)
  | err (msg : String)
  | exn (msg : String)
deriving DecidableEq

/-- Whether resolution produced the program's own error tuple. -/
def SettingsResult.isErrResult : SettingsResult → Bool
  | .err _ => true
  | _ => false

/-- Whether resolution terminated with a defined result (settings or error
tuple) rather than crashing with an uncaught exception. -/
def SettingsResult.isDefined : SettingsResult → Bool
  | .exn _ => false
  | _ => true

/-- The five derived-key assignments of `load_settings` (`SERVICE`,
`CONFIG`, `HOME`, `PYTHON_CMD`, `LOGGING_DIR`), applied after the merge,
in source order. -/
def injectKeys (service config pythonExe here : String) (settings : Entries) : Entries :=
  ((((settings.set "SERVICE" (strVal service)).set "CONFIG"
        (strVal config)).set "HOME" (strVal here)).set "PYTHON_CMD"
      (strVal pythonExe)).set "LOGGING_DIR" (strVal "/var/log/example")

/-- The `env_prefix` step of `load_settings`: when
`descriptor.get('env_prefix')` is truthy, rebuild `settings['env']` with
prefixed keys.  `settings['env']` raises `KeyError` when the merged
settings have no `env` key, and `.items()` raises when `env` is not a
dict. -/
def applyEnvPrefixStep (descriptor : Value) (settings : Entries) : SettingsResult :=
  if (pyGet descriptor "env_prefix" Value.vnone).isFalsy then .ok settings
  else
    match settings.get? "env" with
    | none => .exn "KeyError: env"
    | some (.vdict envEntries) =>
        .ok (settings.set "env"
          (.vdict (envEntries.mapKeys
            (fun k => (pyGet descriptor "env_prefix" Value.vnone).pyStr ++ "_" ++ k))))
    | some _ => .exn "AttributeError: object has no attribute items"

/-- `load_settings` from `service.py`, after the YAML document has been
loaded.  `descriptor` is the loaded document (`Value.vnone` models a YAML
file that loads to `None`); `pythonExe` is `sys.executable` and `here` the
directory constant `HERE`.  The steps mirror the source line by line:
falsiness / `configs`-membership check, requested-config membership check,
`deep_format` over `common`, shallow `update` with the chosen config's
overrides (`or \x7b\x7d` for a falsy override), injection of the five
derived keys, then the `env_prefix` rewrite. -/
def load_settings (service config pythonExe here : String) (descriptor : Value) :
    SettingsResult :=
  if descriptor.isFalsy then .err "Service descriptor invalid or empty"
  else
    match pyContains descriptor "configs" with
    | .error e => .exn e
    | .ok false => .err "Service descriptor invalid or empty"
    | .ok true =>
      match pySubscript descriptor "configs" with
      | .error e => .exn e
      | .ok configsVal =>
        match pyContains configsVal config with
        | .error e => .exn e
        | .ok false => .err ("Config definition not found: " ++ config)
        | .ok true =>
          match deep_format service config (pyGet descriptor "common" (.vdict .nil)) with
          | .error e => .exn e
          | .ok formatted =>
            match formatted with
            | .vdict settingsCommon =>
              match pySubscript configsVal config with
              | .error e => .exn e
              | .ok overrideVal =>
                match (if overrideVal.isFalsy then Value.vdict .nil else overrideVal) with
                | .vdict overrides =>
                    applyEnvPrefixStep descriptor
                      (injectKeys service config pythonExe here
                        (settingsCommon.update overrides))
                | _ => .exn "TypeError: update argument must be a mapping"
            | _ => .exn "AttributeError: object has no attribute update"

/-- One external effect issued by the lifecycle helpers: a systemctl
command, the fixed settle delay, or the unit-file removal. -/
inductive Cmd where
  | stop
  | disable
  | restart
  | status
  | daemonReload
  | enable
  | sleepSettle
  | removeFile
deriving DecidableEq

/-- Externally persisted supervisor-visible state for one unit: whether
the unit file exists, whether the unit is in the enabled set, whether it
is active. -/
structure SupState where
  unitFileExists : Bool
  enabled : Bool
  active : Bool
deriving DecidableEq

/-- The external supervisor's responses: whether each systemctl command
would report success.  The helpers only branch on these signals. -/
structure Oracle where
  stopOk : Bool
  disableOk : Bool
  restartOk : Bool
  statusOk : Bool
deriving DecidableEq

/-- Effect of one issued command on the supervisor-visible state.  A
command that the supervisor rejects leaves the state unchanged. -/
def applyCmd (o : Oracle) (s : SupState) : Cmd → SupState
  | .stop => if o.stopOk then { s with active := false } else s
  | .disable => if o.disableOk then { s with enabled := false } else s
  | .restart => if o.restartOk then { s with active := true } else s
  | .status => s
  | .daemonReload => s
  | .enable => { s with enabled := true }
  | .sleepSettle => s
  | .removeFile => { s with unitFileExists := false }

/-- Replay of an issued command trace over the supervisor state. -/
def runTrace (o : Oracle) (s : SupState) (t : List Cmd) : SupState :=
  t.foldl (applyCmd o) s

/-- `systemd_uninstall` from `service.py`: when the unit file is absent,
return success touching nothing; otherwise `systemctl stop` then
`systemctl disable` (each with `check=True`, so a failure raises
`CalledProcessError`, caught as the uninstall error), then remove the
unit file.  Returns the error (if any) and the trace of effects issued
up to the point the function returned. -/
def systemd_uninstall (serviceName : String) (o : Oracle) (s : SupState) :
    Option String × List Cmd :=
  if s.unitFileExists then
    if !o.stopOk then
      (some ("Failed to uninstall [" ++ serviceName ++ "]"), [Cmd.stop])
    else if !o.disableOk then
      (some ("Failed to uninstall [" ++ serviceName ++ "]"), [Cmd.stop, Cmd.disable])
    else
      (none, [Cmd.stop, Cmd.disable, Cmd.removeFile])
  else (none, [])

/-- `systemd_start` from `service.py`: `systemctl restart`; on a non-zero
return code fail immediately.  Otherwise sleep the fixed settle delay,
probe `systemctl status`; on a non-zero probe issue `systemctl stop`
(result ignored) and fail.  The trace records the settle delay as an
effect so that its absence is statable. -/
def systemd_start (serviceName : String) (o : Oracle) :
    Option String × List Cmd :=
  if !o.restartOk then
    (some ("Failed to start service: " ++ serviceName), [Cmd.restart])
  else if !o.statusOk then
    (some ("Failed to get service status: " ++ serviceName),
      [Cmd.restart, Cmd.sleepSettle, Cmd.status, Cmd.stop])
  else
    (none, [Cmd.restart, Cmd.sleepSettle, Cmd.status])

/-- One external effect issued by `copy_files`. -/
inductive FsEv where
  | rmtreeDst
  | makedirsDst
  | rsyncDst
deriving DecidableEq

/-- Filesystem state seen by `copy_files`, with the source and destination
trees modelled as distinct directories (as at the only call site, where
the source is the static-assets tree and the destination the target
root). -/
structure FsState where
  srcExists : Bool
  srcFiles : List String
  dstExists : Bool
  dstFiles : List String
deriving DecidableEq

/-- Effect of one `copy_files` step on the filesystem. -/
def applyFsEv (rsyncOk : Bool) (s : FsState) : FsEv → FsState
  | .rmtreeDst => { s with dstExists := false, dstFiles := [] }
  | .makedirsDst => { s with dstExists := true }
  | .rsyncDst => if rsyncOk then { s with dstFiles := s.srcFiles } else s

/-- Replay of a `copy_files` trace over the filesystem state. -/
def runFsTrace (rsyncOk : Bool) (s : FsState) (t : List FsEv) : FsState :=
  t.foldl (applyFsEv rsyncOk) s

/-- `copy_files` from `service.py`: `shutil.rmtree(dstdir,
ignore_errors=True)` and `os.makedirs(dstdir)` run unconditionally first;
only then is the source directory's existence checked, and only then is
rsync invoked.  Returns the error (if any) and the trace of effects
issued before returning. -/
def copy_files (srcdir dstdir : String) (s : FsState) (rsyncOk : Bool) :
    Option String × List FsEv :=
  if !s.srcExists then
    (some ("Source directory not exists: " ++ srcdir), [FsEv.rmtreeDst, FsEv.makedirsDst])
  else if !rsyncOk then
    (some "Failed to copy files", [FsEv.rmtreeDst, FsEv.makedirsDst, FsEv.rsyncDst])
  else
    (none, [FsEv.rmtreeDst, FsEv.makedirsDst, FsEv.rsyncDst])

/-- Process exit code of the `run` CLI command, given the outcome of
settings resolution and the return code the resolved child command exits
with (when one is executed).  Mirrors the source: resolution errors and a
missing/falsy `run` entry exit 1; a missing or non-dict `env` mapping
crashes building the child environment (Python exits 1 on the uncaught
exception); a child that exits non-zero makes the tool `sys.exit(1)` —
the child's own code is only printed, never propagated. -/
def run_exit_code (settingsResult : SettingsResult) (childReturncode : Int) : Int :=
  match settingsResult with
  | .ok settings =>
      let runArgs := (settings.get? "run").getD Value.vnone
      if runArgs.isFalsy then 1
      else
        match settings.get? "env" with
        | some (.vdict _) => if childReturncode ≠ 0 then 1 else 0
        | _ => 1
  | _ => 1

/-- Process exit code of the `do` CLI command, analogously: a missing
`actions` mapping or a missing/falsy action entry exits 1; a child that
exits non-zero makes the tool `sys.exit(1)`. -/
def do_exit_code (settingsResult : SettingsResult) (action : String)
    (childReturncode : Int) : Int :=
  match settingsResult with
  | .ok settings =>
      match settings.get? "actions" with
      | none => 1
      | some (.vdict actions) =>
          let actArgs := (actions.get? action).getD Value.vnone
          if actArgs.isFalsy then 1
          else
            match settings.get? "env" with
            | some (.vdict _) => if childReturncode ≠ 0 then 1 else 0
            | _ => 1
      | some _ => 1
  | _ => 1

/-- Resolved settings with a truthy `run` entry, a `migrate` action and an
`env` mapping: a child command really gets executed for them. -/
def c1Settings : Entries :=
  .cons "run" (strVal "manage.py runserver")
    (.cons "actions" (.vdict (.cons "migrate" (strVal "manage.py migrate") .nil))
      (.cons "env" (.vdict .nil) .nil))

/-- Resolved settings like `c1Settings` but with a non-empty `env`
mapping, for the C1 witness. -/
def c1wSettings : Entries :=
  .cons "run" (strVal "manage.py runserver")
    (.cons "actions" (.vdict (.cons "migrate" (strVal "manage.py migrate") .nil))
      (.cons "env"
        (.vdict (.cons "DJANGO_SETTINGS_MODULE" (strVal "app.settings") .nil)) .nil))

/-- Descriptor whose `common` section holds a string leaf with a
placeholder naming `foo`, an unknown substitution name. -/
def c2Descriptor : Value :=
  .vdict (.cons "common" (.vdict (.cons "x" (.vstr [Seg.hole "foo"]) .nil))
    (.cons "configs" (.vdict (.cons "prod" (.vdict .nil) .nil)) .nil))

/-- Descriptor for the C2 witness: a different unknown placeholder
(`bar`) nested one dictionary deeper. -/
def c2wDescriptor : Entries :=
  .cons "common"
    (.vdict (.cons "section" (.vdict (.cons "y" (.vstr [Seg.hole "bar"]) .nil)) .nil))
    (.cons "configs" (.vdict (.cons "dev" (.vdict .nil) .nil)) .nil)

/-- Descriptor that tries to override the injected `SERVICE` key from its
`common` section. -/
def c3Descriptor : Value :=
  .vdict (.cons "common" (.vdict (.cons "SERVICE" (strVal "evil") .nil))
    (.cons "configs" (.vdict (.cons "prod" (.vdict .nil) .nil)) .nil))

/-- What resolving `c3Descriptor` for (`api`, `prod`) produces: the
injected value replaces the descriptor-supplied `SERVICE` in place. -/
def c3Settings : Entries :=
  .cons "SERVICE" (strVal "api")
    (.cons "CONFIG" (strVal "prod")
      (.cons "HOME" (strVal "/opt")
        (.cons "PYTHON_CMD" (strVal "/usr/bin/python")
          (.cons "LOGGING_DIR" (strVal "/var/log/example") .nil))))

/-- Descriptor with a `configs` key but no configs in it: has the
`configs` key, so it passes the emptiness check. -/
def c7EmptyConfigs : Value :=
  .vdict (.cons "configs" (.vdict .nil) .nil)

/-- Descriptor whose non-empty `configs` lacks the requested `prod`. -/
def c7OtherConfigs : Value :=
  .vdict (.cons "configs" (.vdict (.cons "dev" (.vdict .nil) .nil)) .nil)

/-- Descriptor without a `configs` key, for the C7 witness. -/
def c7wNoConfigs : Entries :=
  .cons "common" (.vdict .nil) .nil

/-- Descriptor whose `configs` holds only `stage`, for the C7 witness. -/
def c7wStageOnly : Entries :=
  .cons "configs" (.vdict (.cons "stage" (.vdict .nil) .nil)) .nil

/-- The scenario descriptor of C8:
`common: x = "(service)-(config)"` (as a format string), one empty
`prod` config, no `env_prefix`. -/
def c8Descriptor : Value :=
  .vdict
    (.cons "common"
      (.vdict (.cons "x" (.vstr [Seg.hole "service", Seg.lit "-", Seg.hole "config"]) .nil))
      (.cons "configs" (.vdict (.cons "prod" (.vdict .nil) .nil)) .nil))

/-- The settings that resolving `c8Descriptor` for (`api`, `prod`)
produces. -/
def c8Expected : Entries :=
  .cons "x" (strVal "api-prod")
    (.cons "SERVICE" (strVal "api")
      (.cons "CONFIG" (strVal "prod")
        (.cons "HOME" (strVal "/opt/app")
          (.cons "PYTHON_CMD" (strVal "/usr/bin/python3")
            (.cons "LOGGING_DIR" (strVal "/var/log/example") .nil)))))

/-- Descriptor with a truthy `env_prefix` and no `env` mapping anywhere:
the merged settings end up without an `env` key. -/
def c9Descriptor : Value :=
  .vdict (.cons "env_prefix" (strVal "MYAPP")
    (.cons "configs" (.vdict (.cons "prod" (.vdict .nil) .nil)) .nil))

/-- Variant of `c9Descriptor` used by the C9 witness. -/
def c9wDescriptor : Entries :=
  .cons "env_prefix" (strVal "EXAMPLE")
    (.cons "configs" (.vdict (.cons "dev" (.vdict .nil) .nil)) .nil)

/-- After `d[k] = v`, looking up `k` yields `v` (first-occurrence
replacement preserves this even on lists with shadowed keys). -/
theorem Entries.get?_set_self : ∀ (d : Entries) (k : String) (v : Value),
    (d.set k v).get? k = some v
  | .nil, k, v => by simp [Entries.set, Entries.get?]
  | .cons k0 v0 rest, k, v => by
      by_cases h : k0 = k
      · simp [Entries.set, Entries.get?, h]
      · simp [Entries.set, Entries.get?, h, Entries.get?_set_self rest k v]

/-- `d[k] = v` does not change the lookup of any other key. -/
theorem Entries.get?_set_ne : ∀ (d : Entries) (k k2 : String) (v : Value),
    k ≠ k2 → (d.set k v).get? k2 = d.get? k2
  | .nil, k, k2, v, hne => by simp [Entries.set, Entries.get?, hne]
  | .cons k0 v0 rest, k, k2, v, hne => by
      by_cases h : k0 = k
      · have h2 : ¬ k0 = k2 := by rw [h]; exact hne
        simp [Entries.set, Entries.get?, h, h2, hne]
      · by_cases h2 : k0 = k2
        · have h3 : ¬ k2 = k := by rw [← h2]; exact h
          simp [Entries.set, Entries.get?, h, h2, h3]
        · simp [Entries.set, Entries.get?, h, h2, Entries.get?_set_ne rest k k2 v hne]

/-- A dictionary with a successful lookup is not empty. -/
theorem Entries.isEmpty_eq_false_of_get? (d : Entries) (k : String) (v : Value)
    (h : d.get? k = some v) : d.isEmpty = false := by
  cases d with
  | nil => simp [Entries.get?] at h
  | cons k0 v0 rest => simp [Entries.isEmpty]

/-- The five derived keys all read back their injected values after
`injectKeys`, whatever the merged settings contained. -/
theorem injectKeys_get? (service config pythonExe here : String) (st : Entries) :
    (injectKeys service config pythonExe here st).get? "SERVICE" = some (strVal service) ∧
    (injectKeys service config pythonExe here st).get? "CONFIG" = some (strVal config) ∧
    (injectKeys service config pythonExe here st).get? "HOME" = some (strVal here) ∧
    (injectKeys service config pythonExe here st).get? "PYTHON_CMD" = some (strVal pythonExe) ∧
    (injectKeys service config pythonExe here st).get? "LOGGING_DIR" =
      some (strVal "/var/log/example") := by
  unfold injectKeys
  refine ⟨?_, ?_, ?_, ?_, ?_⟩
  · rw [Entries.get?_set_ne _ _ _ _ (by decide), Entries.get?_set_ne _ _ _ _ (by decide),
      Entries.get?_set_ne _ _ _ _ (by decide), Entries.get?_set_ne _ _ _ _ (by decide),
      Entries.get?_set_self]
  · rw [Entries.get?_set_ne _ _ _ _ (by decide), Entries.get?_set_ne _ _ _ _ (by decide),
      Entries.get?_set_ne _ _ _ _ (by decide), Entries.get?_set_self]
  · rw [Entries.get?_set_ne _ _ _ _ (by decide), Entries.get?_set_ne _ _ _ _ (by decide),
      Entries.get?_set_self]
  · rw [Entries.get?_set_ne _ _ _ _ (by decide), Entries.get?_set_self]
  · rw [Entries.get?_set_self]

/-- The `env_prefix` step only ever reassigns the key `env`: on success,
every other key reads back unchanged. -/
theorem applyEnvPrefixStep_get?_ne (descriptor : Value) (st s : Entries) (k : String)
    (hk : k ≠ "env") (h : applyEnvPrefixStep descriptor st = SettingsResult.ok s) :
    s.get? k = st.get? k := by
  unfold applyEnvPrefixStep at h
  by_cases hp : (pyGet descriptor "env_prefix" Value.vnone).isFalsy = true
  · rw [if_pos hp] at h
    cases h
    rfl
  · rw [if_neg hp] at h
    split at h
    · exact SettingsResult.noConfusion h
    · cases h
      exact Entries.get?_set_ne st "env" k _ (fun hh => hk hh.symm)
    · exact SettingsResult.noConfusion h

/-- A bad segment substitutes to a `KeyError`. -/
theorem renderSeg_error_of_bad (service config : String) (s : Seg)
    (h : s.isBad = true) : ∃ e, renderSeg service config s = Except.error e := by
  cases s with
  | lit text => simp [Seg.isBad] at h
  | hole name =>
      by_cases h1 : name = "service"
      · simp [Seg.isBad, h1] at h
      · by_cases h2 : name = "config"
        · simp [Seg.isBad, h1, h2] at h
        · exact ⟨"KeyError: " ++ name, by simp [renderSeg, h1, h2]⟩

/-- A good segment substitutes successfully. -/
theorem renderSeg_ok_of_good (service config : String) (s : Seg)
    (h : s.isBad = false) : ∃ t, renderSeg service config s = Except.ok t := by
  cases s with
  | lit text => exact ⟨text, rfl⟩
  | hole name =>
      by_cases h1 : name = "service"
      · exact ⟨service, by simp [renderSeg, h1]⟩
      · by_cases h2 : name = "config"
        · exact ⟨config, by simp [renderSeg, h1, h2]⟩
        · simp [Seg.isBad, h1, h2] at h

/-- A format string with a bad placeholder raises `KeyError` when
formatted. -/
theorem renderSegs_error_of_bad (service config : String) :
    ∀ segs : List Seg, segs.any Seg.isBad = true →
      ∃ e, renderSegs service config segs = Except.error e := by
  intro segs
  induction segs with
  | nil => intro h; simp at h
  | cons s rest ih =>
      intro h
      by_cases hs : s.isBad = true
      · obtain ⟨e, he⟩ := renderSeg_error_of_bad service config s hs
        exact ⟨e, by simp [renderSegs, he]⟩
      · have hrest : rest.any Seg.isBad = true := by
          rcases List.any_eq_true.mp h with ⟨x, hx, hxb⟩
          rcases List.mem_cons.mp hx with hx2 | hx2
          · exact absurd (hx2 ▸ hxb) hs
          · exact List.any_eq_true.mpr ⟨x, hx2, hxb⟩
        obtain ⟨e, he⟩ := ih hrest
        obtain ⟨t, ht⟩ := renderSeg_ok_of_good service config s (by simpa using hs)
        exact ⟨e, by simp [renderSegs, ht, he]⟩

mutual
/-- A value containing a bad placeholder fails `deep_format` with the
`KeyError` Python raises. -/
theorem deep_format_error_of_bad (service config : String) :
    ∀ v : Value, hasBadHole v = true →
      ∃ e, deep_format service config v = Except.error e
  | .vstr segs, h => by
      obtain ⟨e, he⟩ := renderSegs_error_of_bad service config segs
        (by simpa [hasBadHole] using h)
      exact ⟨e, by simp [deep_format, he]⟩
  | .vdict entries, h => by
      obtain ⟨e, he⟩ := deepFormatEntries_error_of_bad service config entries
        (by simpa [hasBadHole] using h)
      exact ⟨e, by simp [deep_format, he]⟩
  | .vint n, h => by simp [hasBadHole] at h
  | .vbool b, h => by simp [hasBadHole] at h
  | .vnone, h => by simp [hasBadHole] at h

/-- Entry list counterpart of `deep_format_error_of_bad`. -/
theorem deepFormatEntries_error_of_bad (service config : String) :
    ∀ es : Entries, entriesBadHole es = true →
      ∃ e, deepFormatEntries service config es = Except.error e
  | .nil, h => by simp [entriesBadHole] at h
  | .cons k v rest, h => by
      have h2 : hasBadHole v = true ∨ entriesBadHole rest = true := by
        simpa [entriesBadHole] using h
      rcases h2 with hv | hr
      · obtain ⟨e, he⟩ := deep_format_error_of_bad service config v hv
        exact ⟨e, by simp [deepFormatEntries, he]⟩
      · obtain ⟨e, he⟩ := deepFormatEntries_error_of_bad service config rest hr
        cases hfv : deep_format service config v with
        | error e2 => exact ⟨e2, by simp [deepFormatEntries, hfv]⟩
        | ok fv => exact ⟨e, by simp [deepFormatEntries, hfv, he]⟩
end

/-- Claim C1, counterexample: a child of `run` or `do` exiting with code 7
makes the tool exit with code 1, not 7 — the child's exit code is not
propagated verbatim. -/
theorem C1_counterexample :
    run_exit_code (SettingsResult.ok c1Settings) 7 = 1 ∧
    run_exit_code (SettingsResult.ok c1Settings) 7 ≠ 7 ∧
    do_exit_code (SettingsResult.ok c1Settings) "migrate" 7 = 1 ∧
    do_exit_code (SettingsResult.ok c1Settings) "migrate" 7 ≠ 7 := by
  decide

/-- Claim C1, as amended: when the resolved child command of `run` or `do`
executes and exits with any non-zero code, the tool prints that code but
its own process exit code is the generic failure code 1, not the child's
code. -/
theorem C1_amended (st acts em : Entries) (action : String) (n : Int)
    (hrun : ((st.get? "run").getD Value.vnone).isFalsy = false)
    (henv : st.get? "env" = some (Value.vdict em))
    (hact : st.get? "actions" = some (.vdict acts))
    (hactArg : ((acts.get? action).getD Value.vnone).isFalsy = false)
    (hn : n ≠ 0) :
    run_exit_code (SettingsResult.ok st) n = 1 ∧
    do_exit_code (SettingsResult.ok st) action n = 1 := by
  constructor
  · simp [run_exit_code, hrun, henv, hn]
  · simp [do_exit_code, hact, hactArg, henv, hn]

/-- Witness for `C1_amended` at the concrete settings `c1wSettings`
(non-empty `env` mapping) and child exit code 5. -/
theorem C1_witness :
    ((c1wSettings.get? "run").getD Value.vnone).isFalsy = false ∧
    c1wSettings.get? "env" =
      some (Value.vdict (.cons "DJANGO_SETTINGS_MODULE" (strVal "app.settings") .nil)) ∧
    (c1wSettings.get? "actions" =
      some (.vdict (.cons "migrate" (strVal "manage.py migrate") .nil))) ∧
    (((Entries.cons "migrate" (strVal "manage.py migrate") .nil).get?
        "migrate").getD Value.vnone).isFalsy = false ∧
    (5 : Int) ≠ 0 ∧
    (run_exit_code (SettingsResult.ok c1wSettings) 5 = 1 ∧
      do_exit_code (SettingsResult.ok c1wSettings) "migrate" 5 = 1) :=
  ⟨by decide, by decide, by decide, by decide, by decide,
    C1_amended c1wSettings (.cons "migrate" (strVal "manage.py migrate") .nil)
      (.cons "DJANGO_SETTINGS_MODULE" (strVal "app.settings") .nil) "migrate" 5
      (by decide) (by decide) (by decide) (by decide) (by decide)⟩

/-- Claim C4: with a supervisor that honors stop and disable, `uninstall`
run twice in a row succeeds both times; the second call — the unit file
being absent after the first — issues no supervisor command and attempts
no file removal (its effect trace is empty), and absence of the unit file
short-circuits the call to success with an empty trace. -/
theorem C4_uninstall_idempotent (name : String) (o : Oracle) (s : SupState)
    (hstop : o.stopOk = true) (hdis : o.disableOk = true) :
    (systemd_uninstall name o s).1 = none ∧
    (systemd_uninstall name o (runTrace o s (systemd_uninstall name o s).2)).1 = none ∧
    (systemd_uninstall name o (runTrace o s (systemd_uninstall name o s).2)).2 = [] ∧
    (s.unitFileExists = false → (systemd_uninstall name o s).2 = []) := by
  cases hfe : s.unitFileExists with
  | true => simp [systemd_uninstall, hfe, hstop, hdis, runTrace, applyCmd]
  | false => simp [systemd_uninstall, hfe, runTrace]

/-- Witness for `C4_uninstall_idempotent` at a concrete unit name, a
fully cooperative supervisor and a state with the unit file present. -/
theorem C4_witness :
    (Oracle.mk true true true true).stopOk = true ∧
    (Oracle.mk true true true true).disableOk = true ∧
    ((systemd_uninstall "example.webapp.prod.service" (Oracle.mk true true true true)
        (SupState.mk true true false)).1 = none ∧
      (systemd_uninstall "example.webapp.prod.service" (Oracle.mk true true true true)
        (runTrace (Oracle.mk true true true true) (SupState.mk true true false)
          (systemd_uninstall "example.webapp.prod.service" (Oracle.mk true true true true)
            (SupState.mk true true false)).2)).1 = none ∧
      (systemd_uninstall "example.webapp.prod.service" (Oracle.mk true true true true)
        (runTrace (Oracle.mk true true true true) (SupState.mk true true false)
          (systemd_uninstall "example.webapp.prod.service" (Oracle.mk true true true true)
            (SupState.mk true true false)).2)).2 = [] ∧
      ((SupState.mk true true false).unitFileExists = false →
        (systemd_uninstall "example.webapp.prod.service" (Oracle.mk true true true true)
          (SupState.mk true true false)).2 = [])) :=
  ⟨rfl, rfl,
    C4_uninstall_idempotent "example.webapp.prod.service" (Oracle.mk true true true true)
      (SupState.mk true true false) rfl rfl⟩

/-- Claim C5: when the supervisor's restart command reports failure,
`start` fails immediately — its effect trace is just the restart, with no
settle delay, no status probe and no stop. -/
theorem C5_start_fails_fast (name : String) (o : Oracle)
    (h : o.restartOk = false) :
    (systemd_start name o).1 = some ("Failed to start service: " ++ name) ∧
    (systemd_start name o).2 = [Cmd.restart] := by
  simp [systemd_start, h]

/-- Witness for `C5_start_fails_fast` at a concrete unit name and a
supervisor whose restart fails. -/
theorem C5_witness :
    (Oracle.mk true true false true).restartOk = false ∧
    ((systemd_start "example.webapp.prod.service" (Oracle.mk true true false true)).1 =
        some ("Failed to start service: " ++ "example.webapp.prod.service") ∧
      (systemd_start "example.webapp.prod.service" (Oracle.mk true true false true)).2 =
        [Cmd.restart]) :=
  ⟨rfl, C5_start_fails_fast "example.webapp.prod.service" (Oracle.mk true true false true) rfl⟩

/-- Claim C6: when restart succeeds but the post-delay status probe
reports non-healthy, `start` issues exactly one stop, fails, never issues
a disable, and the unit's membership in the supervisor's enabled set is
unchanged. -/
theorem C6_failed_start_keeps_enabled (name : String) (o : Oracle) (s : SupState)
    (hr : o.restartOk = true) (hs : o.statusOk = false) :
    (systemd_start name o).1 = some ("Failed to get service status: " ++ name) ∧
    (systemd_start name o).2 = [Cmd.restart, Cmd.sleepSettle, Cmd.status, Cmd.stop] ∧
    (systemd_start name o).2.count Cmd.stop = 1 ∧
    Cmd.disable ∉ (systemd_start name o).2 ∧
    (runTrace o s (systemd_start name o).2).enabled = s.enabled := by
  cases hst : o.stopOk with
  | true => simp [systemd_start, hr, hs, hst, runTrace, applyCmd, List.count_cons]
  | false => simp [systemd_start, hr, hs, hst, runTrace, applyCmd, List.count_cons]

/-- Witness for `C6_failed_start_keeps_enabled` at a concrete unit name,
a supervisor whose status probe fails, and an enabled unit. -/
theorem C6_witness :
    (Oracle.mk true true true false).restartOk = true ∧
    (Oracle.mk true true true false).statusOk = false ∧
    ((systemd_start "example.webapp.prod.service" (Oracle.mk true true true false)).1 =
        some ("Failed to get service status: " ++ "example.webapp.prod.service") ∧
      (systemd_start "example.webapp.prod.service" (Oracle.mk true true true false)).2 =
        [Cmd.restart, Cmd.sleepSettle, Cmd.status, Cmd.stop] ∧
      (systemd_start "example.webapp.prod.service" (Oracle.mk true true true false)).2.count
          Cmd.stop = 1 ∧
      Cmd.disable ∉
        (systemd_start "example.webapp.prod.service" (Oracle.mk true true true false)).2 ∧
      (runTrace (Oracle.mk true true true false) (SupState.mk true true false)
          (systemd_start "example.webapp.prod.service"
            (Oracle.mk true true true false)).2).enabled =
        (SupState.mk true true false).enabled) :=
  ⟨rfl, rfl,
    C6_failed_start_keeps_enabled "example.webapp.prod.service" (Oracle.mk true true true false)
      (SupState.mk true true false) rfl rfl⟩

/-- Claim C10: `copy_files` deletes and recreates the destination before
checking the source: when the source directory does not exist the call
returns an error, yet the destination tree has already been emptied
(an existing, empty directory) — staging failure is not atomic. -/
theorem C10_copy_files_destroys_dst_first (srcdir dstdir : String) (s : FsState)
    (rsyncOk : Bool) (h : s.srcExists = false) :
    (copy_files srcdir dstdir s rsyncOk).1 =
      some ("Source directory not exists: " ++ srcdir) ∧
    (copy_files srcdir dstdir s rsyncOk).2 = [FsEv.rmtreeDst, FsEv.makedirsDst] ∧
    (runFsTrace rsyncOk s (copy_files srcdir dstdir s rsyncOk).2).dstExists = true ∧
    (runFsTrace rsyncOk s (copy_files srcdir dstdir s rsyncOk).2).dstFiles = [] := by
  simp [copy_files, h, runFsTrace, applyFsEv]

/-- Witness for `C10_copy_files_destroys_dst_first` at concrete paths and
a state whose destination held files while the source is absent. -/
theorem C10_witness :
    (FsState.mk false [] true ["old.css"]).srcExists = false ∧
    ((copy_files "/opt/app/project_static" "/srv/static"
        (FsState.mk false [] true ["old.css"]) true).1 =
      some ("Source directory not exists: " ++ "/opt/app/project_static") ∧
    (copy_files "/opt/app/project_static" "/srv/static"
        (FsState.mk false [] true ["old.css"]) true).2 =
      [FsEv.rmtreeDst, FsEv.makedirsDst] ∧
    (runFsTrace true (FsState.mk false [] true ["old.css"])
        (copy_files "/opt/app/project_static" "/srv/static"
          (FsState.mk false [] true ["old.css"]) true).2).dstExists = true ∧
    (runFsTrace true (FsState.mk false [] true ["old.css"])
        (copy_files "/opt/app/project_static" "/srv/static"
          (FsState.mk false [] true ["old.css"]) true).2).dstFiles = []) :=
  ⟨rfl,
    C10_copy_files_destroys_dst_first "/opt/app/project_static" "/srv/static"
      (FsState.mk false [] true ["old.css"]) true rfl⟩

/-- Claim C8: resolving the scenario descriptor for service `api` and
config `prod` succeeds, `x` resolves to `api-prod`, `SERVICE` and
`CONFIG` hold the ids, and the remaining three injected keys are
present. -/
theorem C8_scenario :
    load_settings "api" "prod" "/usr/bin/python3" "/opt/app" c8Descriptor =
      SettingsResult.ok c8Expected ∧
    c8Expected.get? "x" = some (strVal "api-prod") ∧
    c8Expected.get? "SERVICE" = some (strVal "api") ∧
    c8Expected.get? "CONFIG" = some (strVal "prod") ∧
    (c8Expected.get? "HOME").isSome = true ∧
    (c8Expected.get? "PYTHON_CMD").isSome = true ∧
    (c8Expected.get? "LOGGING_DIR").isSome = true := by
  decide

/-- Claim C3: whenever settings resolution succeeds, the five injected
keys `SERVICE`, `CONFIG`, `HOME`, `PYTHON_CMD` and `LOGGING_DIR` hold the
derived values, whatever the descriptor supplied under those names — the
injection happens after the merge and always wins. -/
theorem C3_injected_keys_win (service config pythonExe here : String)
    (descriptor : Value) (s : Entries)
    (h : load_settings service config pythonExe here descriptor = SettingsResult.ok s) :
    s.get? "SERVICE" = some (strVal service) ∧
    s.get? "CONFIG" = some (strVal config) ∧
    s.get? "HOME" = some (strVal here) ∧
    s.get? "PYTHON_CMD" = some (strVal pythonExe) ∧
    s.get? "LOGGING_DIR" = some (strVal "/var/log/example") := by
  unfold load_settings at h
  repeat' (first | exact SettingsResult.noConfusion h | split at h)
  refine ⟨?_, ?_, ?_, ?_, ?_⟩ <;>
    rw [applyEnvPrefixStep_get?_ne _ _ _ _ (by decide) h]
  · exact (injectKeys_get? _ _ _ _ _).1
  · exact (injectKeys_get? _ _ _ _ _).2.1
  · exact (injectKeys_get? _ _ _ _ _).2.2.1
  · exact (injectKeys_get? _ _ _ _ _).2.2.2.1
  · exact (injectKeys_get? _ _ _ _ _).2.2.2.2

/-- Witness for `C3_injected_keys_win`: a descriptor that sets `SERVICE`
to `evil` in `common` still resolves with `SERVICE == api`. -/
theorem C3_witness :
    load_settings "api" "prod" "/usr/bin/python" "/opt" c3Descriptor =
      SettingsResult.ok c3Settings ∧
    (c3Settings.get? "SERVICE" = some (strVal "api") ∧
      c3Settings.get? "CONFIG" = some (strVal "prod") ∧
      c3Settings.get? "HOME" = some (strVal "/opt") ∧
      c3Settings.get? "PYTHON_CMD" = some (strVal "/usr/bin/python") ∧
      c3Settings.get? "LOGGING_DIR" = some (strVal "/var/log/example")) :=
  ⟨by decide,
    C3_injected_keys_win "api" "prod" "/usr/bin/python" "/opt" c3Descriptor c3Settings
      (by decide)⟩

/-- Claim C2, counterexample: the descriptor whose `common` holds the
string leaf with placeholder `foo` makes resolution escape with the
uncaught `KeyError` — not return an error result. -/
theorem C2_counterexample :
    load_settings "api" "prod" "/usr/bin/python3" "/opt/app" c2Descriptor =
      SettingsResult.exn "KeyError: foo" ∧
    (load_settings "api" "prod" "/usr/bin/python3" "/opt/app" c2Descriptor).isErrResult =
      false := by
  decide

/-- Claim C2, as amended: a placeholder in `common` referencing a name
other than `service` or `config` makes settings resolution raise the
uncaught `KeyError` from `str.format` — a crash escaping `load_settings`,
not a returned error result. -/
theorem C2_amended (service config pythonExe here : String) (d cfgs : Entries)
    (hc : d.get? "configs" = some (.vdict cfgs))
    (hm : (cfgs.get? config).isSome = true)
    (hbad : hasBadHole (pyGet (.vdict d) "common" (.vdict .nil)) = true) :
    ∃ e, load_settings service config pythonExe here (.vdict d) =
      SettingsResult.exn e := by
  obtain ⟨e, he⟩ := deep_format_error_of_bad service config _ hbad
  refine ⟨e, ?_⟩
  have hne : (Value.vdict d).isFalsy = false := by
    simp [Value.isFalsy, Entries.isEmpty_eq_false_of_get? d "configs" _ hc]
  unfold load_settings
  rw [if_neg (by simp [hne])]
  simp [pyContains, pySubscript, hc, hm, he]

/-- Witness for `C2_amended`: the descriptor with placeholder `bar`
nested inside `common` crashes resolution. -/
theorem C2_witness :
    c2wDescriptor.get? "configs" =
      some (.vdict (.cons "dev" (.vdict .nil) .nil)) ∧
    ((Entries.cons "dev" (.vdict .nil) .nil).get? "dev").isSome = true ∧
    hasBadHole (pyGet (.vdict c2wDescriptor) "common" (.vdict .nil)) = true ∧
    (∃ e, load_settings "svc" "dev" "/usr/bin/python3" "/opt/app" (.vdict c2wDescriptor) =
      SettingsResult.exn e) :=
  ⟨by decide, by decide, by decide,
    C2_amended "svc" "dev" "/usr/bin/python3" "/opt/app" c2wDescriptor
      (.cons "dev" (.vdict .nil) .nil) (by decide) (by decide) (by decide)⟩

/-- Claim C7, counterexample: with an *empty* `configs` mapping the
resolution failure message is exactly the "config key not present"
message, not the invalid-descriptor one — the two cases the claim puts in
different families share a message. -/
theorem C7_counterexample :
    load_settings "api" "prod" "/usr/bin/python3" "/opt/app" c7EmptyConfigs =
      SettingsResult.err "Config definition not found: prod" ∧
    load_settings "api" "prod" "/usr/bin/python3" "/opt/app" c7OtherConfigs =
      SettingsResult.err "Config definition not found: prod" := by
  decide

/-- Claim C7, as amended: an absent or falsy descriptor or a missing
`configs` key yields the message `Service descriptor invalid or empty`,
while a `configs` mapping — *even an empty one* — that lacks the
requested name yields `Config definition not found: <config>`; these two
messages are distinct, but an empty `configs` falls into the second
family, not the first. -/
theorem C7_amended (service config pythonExe here : String) (descriptor : Value)
    (d cfgs : Entries) :
    (descriptor.isFalsy = true →
      load_settings service config pythonExe here descriptor =
        SettingsResult.err "Service descriptor invalid or empty") ∧
    (d.get? "configs" = none →
      load_settings service config pythonExe here (.vdict d) =
        SettingsResult.err "Service descriptor invalid or empty") ∧
    (d.get? "configs" = some (.vdict cfgs) → cfgs.get? config = none →
      load_settings service config pythonExe here (.vdict d) =
        SettingsResult.err ("Config definition not found: " ++ config)) ∧
    "Config definition not found: " ++ config ≠ "Service descriptor invalid or empty" := by
  refine ⟨?_, ?_, ?_, ?_⟩
  · intro h
    unfold load_settings
    rw [if_pos h]
  · intro h
    by_cases hf : (Value.vdict d).isFalsy = true
    · unfold load_settings
      rw [if_pos hf]
    · unfold load_settings
      rw [if_neg hf]
      simp [pyContains, h]
  · intro h1 h2
    have hne : (Value.vdict d).isFalsy = false := by
      simp [Value.isFalsy, Entries.isEmpty_eq_false_of_get? d "configs" _ h1]
    unfold load_settings
    rw [if_neg (by simp [hne])]
    simp [pyContains, pySubscript, h1, h2]
  · intro h
    have h2 := congrArg String.data h
    rw [String.data_append] at h2
    have h3 : "Config definition not found: ".data =
        'C' :: "onfig definition not found: ".data := by decide
    have h4 : "Service descriptor invalid or empty".data =
        'S' :: "ervice descriptor invalid or empty".data := by decide
    rw [h3, List.cons_append, h4] at h2
    injection h2 with hc _
    exact absurd hc (by decide)

/-- Witness for `C7_amended`: the three failure shapes at concrete
descriptors, and the distinctness of the two messages. -/
theorem C7_witness :
    load_settings "api" "prod" "/usr/bin/python3" "/opt/app" Value.vnone =
      SettingsResult.err "Service descriptor invalid or empty" ∧
    load_settings "api" "prod" "/usr/bin/python3" "/opt/app" (.vdict c7wNoConfigs) =
      SettingsResult.err "Service descriptor invalid or empty" ∧
    load_settings "api" "prod" "/usr/bin/python3" "/opt/app" (.vdict c7wStageOnly) =
      SettingsResult.err ("Config definition not found: " ++ "prod") ∧
    "Config definition not found: " ++ "prod" ≠ "Service descriptor invalid or empty" :=
  ⟨(C7_amended "api" "prod" "/usr/bin/python3" "/opt/app" Value.vnone Entries.nil
      Entries.nil).1 (by decide),
    (C7_amended "api" "prod" "/usr/bin/python3" "/opt/app" Value.vnone c7wNoConfigs
      Entries.nil).2.1 (by decide),
    (C7_amended "api" "prod" "/usr/bin/python3" "/opt/app" Value.vnone c7wStageOnly
      (.cons "stage" (.vdict .nil) .nil)).2.2.1 (by decide) (by decide),
    (C7_amended "api" "prod" "/usr/bin/python3" "/opt/app" Value.vnone Entries.nil
      Entries.nil).2.2.2⟩

/-- Claim C9, counterexample: a descriptor with `env_prefix` set and no
`env` mapping crashes resolution with an uncaught `KeyError` — not a
defined result. -/
theorem C9_counterexample :
    load_settings "api" "prod" "/usr/bin/python3" "/opt/app" c9Descriptor =
      SettingsResult.exn "KeyError: env" ∧
    (load_settings "api" "prod" "/usr/bin/python3" "/opt/app" c9Descriptor).isDefined =
      false := by
  decide

/-- Claim C9, as amended: when `env_prefix` is truthy but the merged
settings carry no `env` key, the prefixing step's `settings['env']`
lookup raises an uncaught `KeyError`, so resolution crashes instead of
terminating with a defined result. -/
theorem C9_amended (service config pythonExe here : String)
    (d cfgs m0 ovE : Entries) (ov : Value)
    (hc : d.get? "configs" = some (.vdict cfgs))
    (hov : cfgs.get? config = some ov)
    (hfmt : deep_format service config (pyGet (.vdict d) "common" (.vdict .nil)) =
      Except.ok (.vdict m0))
    (hovd : (if ov.isFalsy then Value.vdict Entries.nil else ov) = .vdict ovE)
    (hpre : (pyGet (.vdict d) "env_prefix" Value.vnone).isFalsy = false)
    (henv : (injectKeys service config pythonExe here (m0.update ovE)).get? "env" = none) :
    load_settings service config pythonExe here (.vdict d) =
      SettingsResult.exn "KeyError: env" := by
  have hne : (Value.vdict d).isFalsy = false := by
    simp [Value.isFalsy, Entries.isEmpty_eq_false_of_get? d "configs" _ hc]
  unfold load_settings
  rw [if_neg (by simp [hne])]
  simp [pyContains, pySubscript, hc, hov, hfmt, hovd, applyEnvPrefixStep, hpre, henv]

/-- Witness for `C9_amended` at the concrete descriptor
`c9wDescriptor`. -/
theorem C9_witness :
    c9wDescriptor.get? "configs" = some (.vdict (.cons "dev" (.vdict .nil) .nil)) ∧
    (Entries.cons "dev" (.vdict .nil) .nil).get? "dev" = some (Value.vdict .nil) ∧
    deep_format "api" "dev" (pyGet (.vdict c9wDescriptor) "common" (.vdict .nil)) =
      Except.ok (.vdict .nil) ∧
    (if (Value.vdict Entries.nil).isFalsy then Value.vdict Entries.nil
      else Value.vdict Entries.nil) = Value.vdict Entries.nil ∧
    (pyGet (.vdict c9wDescriptor) "env_prefix" Value.vnone).isFalsy = false ∧
    (injectKeys "api" "dev" "/usr/bin/python3" "/opt/app"
      (Entries.update .nil .nil)).get? "env" = none ∧
    load_settings "api" "dev" "/usr/bin/python3" "/opt/app" (.vdict c9wDescriptor) =
      SettingsResult.exn "KeyError: env" :=
  ⟨by decide, by decide, by rfl, by decide, by decide, by decide,
    C9_amended "api" "dev" "/usr/bin/python3" "/opt/app" c9wDescriptor
      (.cons "dev" (.vdict .nil) .nil) .nil .nil (Value.vdict .nil)
      (by decide) (by decide) (by rfl) (by decide) (by decide) (by decide)⟩
